import Mathlib

/-! Verification development for the kukufm audio bot (src/bot.py).

The Python handler is shallowly embedded: `handle_message` becomes a pure
function from a rate-limiter state and a request (with oracles fixing the
behaviour of the external resolver, fetcher and audio send) to a step result
recording the new limiter state, the outbound sends, and the log records.
Times are rationals, user ids are naturals, and the `defaultdict(float)`
rate-limit table is a total function with default value 0, matching
defaultdict semantics (an absent key reads as `0.0`). -/

namespace KukuBot

/-- User identity (the platform-assigned `update.effective_user.id`). -/
abbrev UserId := Nat

/-- Arrival times (`time.time()` values), modelled as rationals. -/
abbrev Time := ℚ

/-- The rate limiter table `user_last_request = defaultdict(float)`:
a total map with default value `0`. -/
abbrev RLState := UserId → Time

/-- Configuration from the environment: `RATE_LIMIT_SECONDS` (default 10)
and `MAX_FILE_SIZE_MB` (default 50). -/
structure Config where
  rateLimitSeconds : ℚ
  maxFileSizeMB : ℤ
deriving DecidableEq

/-- The character class of `re.sub(r'[<>:"/\\|?*]', "_", filename)`. -/
def forbiddenChar (c : Char) : Bool :=
  c = '<' || c = '>' || c = ':' || c = '"' || c = '/' || c = '\\' ||
  c = '|' || c = '?' || c = '*'

/-- Replacement performed on a single character by the `re.sub` call. -/
def replaceForbidden (c : Char) : Char :=
  if forbiddenChar c then '_' else c

/-- `sanitize_filename` (src/bot.py lines 63-65): substitute `_` for every
forbidden character, then truncate to the first 100 characters (`[:100]`). -/
def sanitize_filename (filename : String) : String :=
  String.mk ((filename.data.map replaceForbidden).take 100)

/-- Digits-to-number accumulation for the model of Python `int`. -/
def digitsToNat (l : List Char) : Nat :=
  l.foldl (fun acc c => acc * 10 + (c.toNat - 48)) 0

/-- A nonempty all-digit character list parses; anything else raises. -/
def pyIntDigits (l : List Char) : Option ℤ :=
  if l.isEmpty then none
  else if l.all Char.isDigit then some (digitsToNat l) else none

/-- Model of Python `int(s)` on a header string: an optional sign followed by
decimal digits; any other shape raises `ValueError` (modelled as `none`). -/
def pyInt (s : String) : Option ℤ :=
  match s.data with
  | '-' :: rest => (pyIntDigits rest).map Neg.neg
  | '+' :: rest => pyIntDigits rest
  | l => pyIntDigits l

/-- Model of Python `str.strip()`: drop whitespace from both ends. -/
def pyStrip (s : String) : String :=
  String.mk (((s.data.dropWhile Char.isWhitespace).reverse.dropWhile
    Char.isWhitespace).reverse)

/-- Model of Python `str.startswith(p)`: `p` is an initial segment of `s`. -/
def beginsWith (p s : String) : Bool :=
  p.data.isPrefixOf s.data

/-- Outcome of `download_audio_info` (the yt-dlp resolver) as an oracle:
either it raises with a message, or returns `info`; `usable` models the
test `info and "url" in info`, and `title` models `info.get("title")`. -/
inductive ResolverOutcome
  | raises (msg : String)
  | returns (usable : Bool) (title : Option String)
deriving DecidableEq

/-- An HTTP response from `requests.get`: status code, the optional
`content-length` header value, and the body bytes. -/
structure FetchResponse where
  status : Nat
  contentLength : Option String
  body : List Nat
deriving DecidableEq

/-- Outcome of `requests.get` as an oracle: raises, or returns a response. -/
inductive FetchOutcome
  | raises (msg : String)
  | response (resp : FetchResponse)
deriving DecidableEq

/-- One inbound request: sender identity, arrival time, raw text, plus the
oracles fixing the resolver, the fetcher, and the success audio send
(`audioSendRaises = some m` means `reply_audio` raises with message `m`). -/
structure Request where
  userId : UserId
  time : Time
  text : String
  resolver : ResolverOutcome
  fetch : FetchOutcome
  audioSendRaises : Option String
deriving DecidableEq

/-- Outbound send events: a plain text reply, or an attempt to send the
audio payload with the derived filename (`ok = false` when the send raises). -/
inductive Sent
  | text (msg : String)
  | audioAttempt (filename : String) (ok : Bool)
deriving DecidableEq

/-- Records emitted through `logger` during one request. -/
inductive LogRec
  | info (msg : String)
  | error (msg : String)
deriving DecidableEq

/-- Message of the exception raised by `response.raise_for_status()`. -/
def statusErrorMsg (status : Nat) : String :=
  toString status ++ " Error for url"

/-- Message of the `ValueError` raised by `int()` on a malformed string. -/
def intErrorMsg (s : String) : String :=
  "invalid literal for int() with base 10: " ++ s

/-- Result of the size pre-check on a fetched response. -/
inductive SizeCheck
  | pass
  | reject
  | raises (msg : String)
deriving DecidableEq

/-- The size pre-check (src/bot.py lines 110-111):
`content_length = response.headers.get("content-length")`, then
`if content_length and int(content_length) > MAX_FILE_SIZE_MB * 1024 * 1024`.
An absent or empty header is falsy and skips the check entirely; a malformed
value makes `int()` raise. -/
def sizeCheck (cfg : Config) (resp : FetchResponse) : SizeCheck :=
  match resp.contentLength with
  | none => .pass
  | some s =>
    if s.data.isEmpty then .pass
    else
      match pyInt s with
      | none => .raises (intErrorMsg s)
      | some n => if cfg.maxFileSizeMB * 1024 * 1024 < n then .reject else .pass

/-- The rate-limit test (src/bot.py line 88):
`current_time - user_last_request[user_id] < RATE_LIMIT_SECONDS`. -/
def rateLimited (cfg : Config) (st : RLState) (u : UserId) (now : Time) : Bool :=
  decide (now - st u < cfg.rateLimitSeconds)

/-- Effects accumulated inside the `try:` block, and the exception (if any)
escaping to the `except` clause. -/
structure TryResult where
  sends : List Sent
  logs : List LogRec
  bodyRead : Bool
  exn : Option String
deriving DecidableEq

/-- The `try:` block of `handle_message` (src/bot.py lines 98-119): resolve,
test the info for a usable stream url, sanitize the title, fetch,
`raise_for_status`, size pre-check, read the body (`response.content`),
send the audio, log the success line. -/
def tryBody (cfg : Config) (req : Request) : TryResult :=
  match req.resolver with
  | .raises msg => ⟨[], [], false, some msg⟩
  | .returns usable title =>
    if usable = false then
      ⟨[.text "❌ Could not fetch audio."], [], false, none⟩
    else
      let t := sanitize_filename (title.getD "audio")
      match req.fetch with
      | .raises msg => ⟨[], [], false, some msg⟩
      | .response resp =>
        if 400 ≤ resp.status then
          ⟨[], [], false, some (statusErrorMsg resp.status)⟩
        else
          match sizeCheck cfg resp with
          | .raises msg => ⟨[], [], false, some msg⟩
          | .reject =>
            ⟨[.text ("❌ File too large (> " ++ toString cfg.maxFileSizeMB ++ "MB).")],
              [], false, none⟩
          | .pass =>
            match req.audioSendRaises with
            | some msg => ⟨[.audioAttempt (t ++ ".mp3") false], [], true, some msg⟩
            | none =>
              ⟨[.audioAttempt (t ++ ".mp3") true],
                [.info ("✅ Sent audio: " ++ t)], true, none⟩

/-- The observable result of one `handle_message` invocation. -/
structure StepResult where
  state : RLState
  sends : List Sent
  logs : List LogRec
  resolverInvoked : Bool
  bodyRead : Bool

/-- `handle_message` (src/bot.py lines 83-123): rate check, record of the
arrival time on passing the check, URL validation on the stripped text, then
the `try:` block with its catch-all `except` that logs the error and sends
the user-facing error reply. -/
def handleMessage (cfg : Config) (st : RLState) (req : Request) : StepResult :=
  if rateLimited cfg st req.userId req.time then
    ⟨st, [.text "⏳ Please wait before making another request."], [], false, false⟩
  else
    let st' : RLState := fun u => if u = req.userId then req.time else st u
    let url := pyStrip req.text
    if beginsWith "http" url = false then
      ⟨st', [.text "❌ Please send a valid URL."], [], false, false⟩
    else
      let r := tryBody cfg req
      match r.exn with
      | none => ⟨st', r.sends, r.logs, true, r.bodyRead⟩
      | some e =>
        ⟨st', r.sends ++ [.text ("❌ Error: " ++ e)],
          r.logs ++ [.error ("Error: " ++ e)], true, r.bodyRead⟩

/-- Limiter state after one pipeline step. -/
def pipelineStep (cfg : Config) (st : RLState) (req : Request) : RLState :=
  (handleMessage cfg st req).state

/-- Limiter state after processing a sequence of requests in order. -/
def runState (cfg : Config) (st : RLState) (reqs : List Request) : RLState :=
  reqs.foldl (pipelineStep cfg) st

/-- A request is accepted (not rate-limit-rejected) when it is dispatched
right after the requests in `pre`, starting from limiter state `st0`. -/
def acceptedAfter (cfg : Config) (st0 : RLState) (pre : List Request)
    (req : Request) : Prop :=
  rateLimited cfg (runState cfg st0 pre) req.userId req.time = false

/-- Whether a send event actually went out (a raised `reply_audio` did not). -/
def sendOk : Sent → Bool
  | .text _ => true
  | .audioAttempt _ ok => ok

/-- The sends that actually reached the platform. -/
def successfulSends (l : List Sent) : List Sent :=
  l.filter sendOk

/-- The underscore written by the substitution is itself never forbidden. -/
theorem forbiddenChar_underscore : forbiddenChar '_' = false := by decide

/-- Substituting a character twice is the same as substituting once. -/
theorem replaceForbidden_idem (c : Char) :
    replaceForbidden (replaceForbidden c) = replaceForbidden c := by
  simp only [replaceForbidden]
  by_cases h : forbiddenChar c = true
  · simp [h, forbiddenChar_underscore]
  · simp [h]

/-- The character data of a sanitized name. -/
theorem sanitize_filename_data (s : String) :
    (sanitize_filename s).data = (s.data.map replaceForbidden).take 100 := rfl

/-- Claim C4: `sanitize_filename` replaces exactly each forbidden character
(`< > : " / \ | ? *`) with `_` and truncates to 100 characters, its output
never exceeds 100 characters, it is idempotent, and it fixes every
already-clean input of length at most 100. -/
theorem C4_sanitize_total (s : String) :
    (sanitize_filename s).data = (s.data.take 100).map replaceForbidden ∧
    (sanitize_filename s).length ≤ 100 ∧
    sanitize_filename (sanitize_filename s) = sanitize_filename s ∧
    ((∀ c ∈ s.data, forbiddenChar c = false) → s.length ≤ 100 →
      sanitize_filename s = s) := by
  refine ⟨?_, ?_, ?_, ?_⟩
  · rw [sanitize_filename_data, List.map_take]
  · show ((s.data.map replaceForbidden).take 100).length ≤ 100
    rw [List.length_take]
    exact min_le_left _ _
  · apply congrArg String.mk
    show (((s.data.map replaceForbidden).take 100).map replaceForbidden).take 100
        = (s.data.map replaceForbidden).take 100
    have hff : replaceForbidden ∘ replaceForbidden = replaceForbidden := by
      funext c
      exact replaceForbidden_idem c
    rw [List.map_take, List.map_map, hff, List.take_take, min_self]
  · intro hclean hlen
    have hmap : s.data.map replaceForbidden = s.data := by
      have hid : ∀ c ∈ s.data, replaceForbidden c = id c := by
        intro c hc
        simp [replaceForbidden, hclean c hc]
      rw [List.map_congr_left hid, List.map_id]
    show String.mk ((s.data.map replaceForbidden).take 100) = s
    rw [hmap, List.take_of_length_le hlen]

/-- Concrete instance of the C4 theorem: a clean short name is fixed and the
output respects the length bound. -/
theorem C4_sanitize_total_witness :
    sanitize_filename "abc" = "abc" ∧ (sanitize_filename "abc").length ≤ 100 :=
  ⟨(C4_sanitize_total "abc").2.2.2 (by decide) (by decide),
    (C4_sanitize_total "abc").2.1⟩

/-- The rate check passes exactly when the arrival time is at least the
recorded time plus the window. -/
theorem rateLimited_eq_false_iff (cfg : Config) (st : RLState) (u : UserId)
    (now : Time) :
    rateLimited cfg st u now = false ↔ cfg.rateLimitSeconds ≤ now - st u := by
  simp [rateLimited, not_lt]

/-- Direct criterion for passing the rate check. -/
theorem rateLimited_false_of (cfg : Config) (st : RLState) (u : UserId)
    (now : Time) (h : cfg.rateLimitSeconds ≤ now - st u) :
    rateLimited cfg st u now = false :=
  (rateLimited_eq_false_iff cfg st u now).mpr h

/-- Direct criterion for failing the rate check. -/
theorem rateLimited_true_of (cfg : Config) (st : RLState) (u : UserId)
    (now : Time) (h : now - st u < cfg.rateLimitSeconds) :
    rateLimited cfg st u now = true := by
  simp [rateLimited, h]

/-- The limiter state written by one `handle_message` call: unchanged on a
rate-limit rejection, and overwritten at the sender's key with the arrival
time on every other path. -/
theorem handleMessage_state (cfg : Config) (st : RLState) (req : Request) :
    (handleMessage cfg st req).state =
      if rateLimited cfg st req.userId req.time then st
      else fun u => if u = req.userId then req.time else st u := by
  unfold handleMessage
  cases hrl : rateLimited cfg st req.userId req.time
  · simp only [Bool.false_eq_true, if_false]
    split
    · rfl
    · split <;> rfl
  · simp only [if_true]

/-- Claim C1 (amended): the Rate Limiter entry for the sender is overwritten
with the arrival time exactly when the rate check passes — immediately after
the check and before validation, resolution or the size gate — so validation,
resolution and size rejections do mutate the limiter state; only a rate-limit
rejection leaves the state unchanged. -/
theorem C1_record_on_rate_pass (cfg : Config) (st : RLState) (req : Request) :
    (handleMessage cfg st req).state =
      if rateLimited cfg st req.userId req.time then st
      else fun u => if u = req.userId then req.time else st u :=
  handleMessage_state cfg st req

/-- Claim C1 counterexample: a validation-rejected request (rate check
passed, text has no URL shape) still overwrites the sender's limiter entry:
the reply is the invalid-URL rejection, the prior entry was 0, and the entry
afterwards is the arrival time 100. -/
theorem C1_counterexample :
    (handleMessage ⟨10, 50⟩ (fun _ => 0)
        ⟨1, 100, "hello", .raises "e", .raises "f", none⟩).sends =
      [.text "❌ Please send a valid URL."] ∧
    (fun _ => (0 : ℚ)) 1 = 0 ∧
    (handleMessage ⟨10, 50⟩ (fun _ => 0)
        ⟨1, 100, "hello", .raises "e", .raises "f", none⟩).state 1 = 100 := by
  have hrl : rateLimited ⟨10, 50⟩ (fun _ => 0) 1 100 = false :=
    rateLimited_false_of _ _ _ _ (by norm_num)
  refine ⟨?_, rfl, ?_⟩
  · simp only [handleMessage, hrl, Bool.false_eq_true, if_false]
    rfl
  · simp only [handleMessage, hrl, Bool.false_eq_true, if_false]
    rfl

/-- Claim C2 (amended): an absent entry reads as the `defaultdict(float)`
default `0.0`, so the first request from an identity passes the rate check
exactly when its arrival time is at least `window_seconds`; with `now`
below the window the very first request is rejected. -/
theorem C2_first_request (cfg : Config) (st : RLState) (u : UserId) (now : Time)
    (hfresh : st u = 0) :
    rateLimited cfg st u now = false ↔ cfg.rateLimitSeconds ≤ now := by
  rw [rateLimited_eq_false_iff, hfresh, sub_zero]

/-- Concrete instance of the C2 theorem: with window 10 and a fresh identity,
a first request arriving at time 100 passes the rate check. -/
theorem C2_first_request_witness :
    rateLimited ⟨10, 50⟩ (fun _ => 0) 1 100 = false :=
  (C2_first_request ⟨10, 50⟩ (fun _ => 0) 1 100 rfl).mpr (by norm_num)

/-- Claim C2 counterexample: an identity with no prior entry (the table is
everywhere the default 0) arriving at time 5 with window 10 is rejected by
the rate check — the first request is not always allowed. -/
theorem C2_counterexample :
    (fun _ => (0 : ℚ)) 1 = 0 ∧
    rateLimited ⟨10, 50⟩ (fun _ => 0) 1 5 = true ∧
    (handleMessage ⟨10, 50⟩ (fun _ => 0)
        ⟨1, 5, "http://a", .raises "e", .raises "f", none⟩).sends =
      [.text "⏳ Please wait before making another request."] := by
  have hrl : rateLimited ⟨10, 50⟩ (fun _ => 0) 1 5 = true :=
    rateLimited_true_of _ _ _ _ (by norm_num)
  refine ⟨rfl, hrl, ?_⟩
  simp [handleMessage, hrl]

/-- One pipeline step never lowers a recorded timestamp when the window is
nonnegative. -/
theorem pipelineStep_mono (cfg : Config) (hw : 0 ≤ cfg.rateLimitSeconds)
    (st : RLState) (req : Request) (u : UserId) :
    st u ≤ pipelineStep cfg st req u := by
  unfold pipelineStep
  rw [handleMessage_state]
  cases hrl : rateLimited cfg st req.userId req.time
  · simp only [Bool.false_eq_true, if_false]
    by_cases hu : u = req.userId
    · subst hu
      rw [if_pos rfl]
      have hge := (rateLimited_eq_false_iff cfg st req.userId req.time).mp hrl
      linarith
    · simp [hu]
  · simp

/-- Processing any further requests never lowers a recorded timestamp. -/
theorem runState_mono (cfg : Config) (hw : 0 ≤ cfg.rateLimitSeconds)
    (st : RLState) (reqs : List Request) (u : UserId) :
    st u ≤ runState cfg st reqs u := by
  induction reqs generalizing st with
  | nil => simp [runState]
  | cons r rs ih =>
    have h1 : st u ≤ pipelineStep cfg st r u := pipelineStep_mono cfg hw st r u
    have h2 : pipelineStep cfg st r u ≤ runState cfg (pipelineStep cfg st r) rs u :=
      ih (pipelineStep cfg st r)
    calc st u ≤ pipelineStep cfg st r u := h1
      _ ≤ runState cfg (pipelineStep cfg st r) rs u := h2
      _ = runState cfg st (r :: rs) u := rfl

/-- Claim C3: in any request sequence, two requests from the same identity
that both pass the rate check (are not rate-limit-rejected) have arrival
times at least `window_seconds` apart, for any nonnegative window. -/
theorem C3_window_spacing (cfg : Config) (st0 : RLState) (pre mid : List Request)
    (r1 r2 : Request) (hw : 0 ≤ cfg.rateLimitSeconds)
    (huser : r1.userId = r2.userId)
    (h1 : acceptedAfter cfg st0 pre r1)
    (h2 : acceptedAfter cfg st0 (pre ++ r1 :: mid) r2) :
    cfg.rateLimitSeconds ≤ r2.time - r1.time := by
  unfold acceptedAfter at h1 h2
  have hstep : pipelineStep cfg (runState cfg st0 pre) r1 r1.userId = r1.time := by
    unfold pipelineStep
    rw [handleMessage_state, h1]
    simp
  have hsplit : runState cfg st0 (pre ++ r1 :: mid) =
      runState cfg (pipelineStep cfg (runState cfg st0 pre) r1) mid := by
    unfold runState
    rw [List.foldl_append]
    rfl
  have hge : r1.time ≤ runState cfg st0 (pre ++ r1 :: mid) r2.userId := by
    rw [hsplit, ← huser, ← hstep]
    exact runState_mono cfg hw _ mid r1.userId
  have h2' := (rateLimited_eq_false_iff cfg _ r2.userId r2.time).mp h2
  linarith

/-- Concrete instance of the C3 theorem: with window 10, requests from user 1
accepted at times 100 and 110 are 10 apart. -/
theorem C3_window_spacing_witness :
    (10 : ℚ) ≤ 110 - 100 := by
  have hrl1 : rateLimited ⟨10, 50⟩ (fun _ => 0) 1 100 = false :=
    rateLimited_false_of _ _ _ _ (by norm_num)
  have hs : runState ⟨10, 50⟩ (fun _ => 0)
      ([] ++ ⟨1, 100, "http://a", .raises "e", .raises "f", none⟩ :: []) 1 = 100 := by
    simp [runState, pipelineStep, handleMessage_state, hrl1]
  refine C3_window_spacing ⟨10, 50⟩ (fun _ => 0) [] []
    ⟨1, 100, "http://a", .raises "e", .raises "f", none⟩
    ⟨1, 110, "http://b", .raises "e", .raises "f", none⟩
    (by norm_num) rfl ?_ ?_
  · exact rateLimited_false_of _ _ _ _
      (by simp only [runState, List.foldl_nil]; norm_num)
  · exact rateLimited_false_of _ _ _ _ (by rw [hs]; norm_num)

/-- Claim C5 (amended): a non-rate-limited request is rejected with the
invalid-URL reply, without invoking the resolver, exactly when the stripped
text does not begin with the four characters "http"; a text beginning with
"http" but with no full HTTP(S) scheme marker proceeds to resolution. -/
theorem C5_url_validation (cfg : Config) (st : RLState) (req : Request)
    (hrl : rateLimited cfg st req.userId req.time = false)
    (hurl : beginsWith "http" (pyStrip req.text) = false) :
    (handleMessage cfg st req).sends = [.text "❌ Please send a valid URL."] ∧
    (handleMessage cfg st req).resolverInvoked = false := by
  constructor <;> simp [handleMessage, hrl, hurl]

/-- Concrete instance of the C5 theorem: text "ftp://x" is rejected as an
invalid URL and the resolver is never invoked. -/
theorem C5_url_validation_witness :
    (handleMessage ⟨10, 50⟩ (fun _ => 0)
        ⟨1, 100, "ftp://x", .raises "e", .raises "f", none⟩).sends =
      [.text "❌ Please send a valid URL."] ∧
    (handleMessage ⟨10, 50⟩ (fun _ => 0)
        ⟨1, 100, "ftp://x", .raises "e", .raises "f", none⟩).resolverInvoked =
      false :=
  C5_url_validation _ _ _ (rateLimited_false_of _ _ _ _ (by norm_num)) (by decide)

/-- Claim C5 counterexample: the trimmed text "httpx" begins with no HTTP(S)
scheme marker and the request is not rate-limited, yet the pipeline invokes
the resolver instead of replying with the invalid-URL message. -/
theorem C5_counterexample :
    beginsWith "http://" (pyStrip "httpx") = false ∧
    beginsWith "https://" (pyStrip "httpx") = false ∧
    rateLimited ⟨10, 50⟩ (fun _ => 0) 1 100 = false ∧
    (handleMessage ⟨10, 50⟩ (fun _ => 0)
        ⟨1, 100, "httpx", .raises "boom", .raises "f", none⟩).resolverInvoked =
      true ∧
    (handleMessage ⟨10, 50⟩ (fun _ => 0)
        ⟨1, 100, "httpx", .raises "boom", .raises "f", none⟩).sends ≠
      [.text "❌ Please send a valid URL."] := by
  have hrl : rateLimited ⟨10, 50⟩ (fun _ => 0) 1 100 = false :=
    rateLimited_false_of _ _ _ _ (by norm_num)
  refine ⟨by decide, by decide, hrl, ?_, ?_⟩
  · simp only [handleMessage, hrl, Bool.false_eq_true, if_false]
    rfl
  · simp only [handleMessage, hrl, Bool.false_eq_true, if_false]
    decide

/-- Claim C6: a fetch response carrying a content-length value strictly above
`max_file_size_mb * 1024 * 1024` is rejected with the size-exceeded reply and
the body is never read, while a content-length exactly equal to the threshold
is not size-rejected: the body is read and the audio send goes out. -/
theorem C6_size_gate :
    (∀ (cfg : Config) (st : RLState) (u : UserId) (t : Time) (txt : String)
        (title : Option String) (status : Nat) (cl : String) (body : List Nat)
        (snd : Option String) (n : ℤ),
      rateLimited cfg st u t = false →
      beginsWith "http" (pyStrip txt) = true →
      status < 400 →
      cl.data.isEmpty = false →
      pyInt cl = some n →
      cfg.maxFileSizeMB * 1024 * 1024 < n →
      (handleMessage cfg st
          ⟨u, t, txt, .returns true title,
            .response ⟨status, some cl, body⟩, snd⟩).sends =
        [.text ("❌ File too large (> " ++ toString cfg.maxFileSizeMB ++ "MB).")] ∧
      (handleMessage cfg st
          ⟨u, t, txt, .returns true title,
            .response ⟨status, some cl, body⟩, snd⟩).bodyRead = false) ∧
    (∀ (cfg : Config) (st : RLState) (u : UserId) (t : Time) (txt : String)
        (title : Option String) (status : Nat) (cl : String) (body : List Nat),
      rateLimited cfg st u t = false →
      beginsWith "http" (pyStrip txt) = true →
      status < 400 →
      cl.data.isEmpty = false →
      pyInt cl = some (cfg.maxFileSizeMB * 1024 * 1024) →
      (handleMessage cfg st
          ⟨u, t, txt, .returns true title,
            .response ⟨status, some cl, body⟩, none⟩).bodyRead = true ∧
      (handleMessage cfg st
          ⟨u, t, txt, .returns true title,
            .response ⟨status, some cl, body⟩, none⟩).sends =
        [.audioAttempt (sanitize_filename (title.getD "audio") ++ ".mp3") true]) := by
  constructor
  · intro cfg st u t txt title status cl body snd n hrl hurl hst hcl hn hgt
    have hnot : ¬ (400 ≤ status) := by omega
    have hsz : sizeCheck cfg ⟨status, some cl, body⟩ = .reject := by
      simp [sizeCheck, hcl, hn, hgt]
    constructor <;> simp [handleMessage, hrl, hurl, tryBody, hnot, hsz]
  · intro cfg st u t txt title status cl body hrl hurl hst hcl hn
    have hnot : ¬ (400 ≤ status) := by omega
    have hsz : sizeCheck cfg ⟨status, some cl, body⟩ = .pass := by
      simp [sizeCheck, hcl, hn]
    constructor <;> simp [handleMessage, hrl, hurl, tryBody, hnot, hsz]

/-- Concrete instance of the C6 theorem: with the default 50MB limit, a
content-length of 52428801 bytes is rejected without a body read, and one of
exactly 52428800 bytes is fetched and sent. -/
theorem C6_size_gate_witness :
    ((handleMessage ⟨10, 50⟩ (fun _ => 0)
        ⟨1, 100, "http://x", .returns true (some "T"),
          .response ⟨200, some "52428801", [0]⟩, none⟩).sends =
      [.text ("❌ File too large (> " ++ toString (50 : ℤ) ++ "MB).")] ∧
    (handleMessage ⟨10, 50⟩ (fun _ => 0)
        ⟨1, 100, "http://x", .returns true (some "T"),
          .response ⟨200, some "52428801", [0]⟩, none⟩).bodyRead = false) ∧
    ((handleMessage ⟨10, 50⟩ (fun _ => 0)
        ⟨1, 100, "http://x", .returns true (some "T"),
          .response ⟨200, some "52428800", [0]⟩, none⟩).bodyRead = true ∧
    (handleMessage ⟨10, 50⟩ (fun _ => 0)
        ⟨1, 100, "http://x", .returns true (some "T"),
          .response ⟨200, some "52428800", [0]⟩, none⟩).sends =
      [.audioAttempt (sanitize_filename "T" ++ ".mp3") true]) :=
  ⟨C6_size_gate.1 ⟨10, 50⟩ (fun _ => 0) 1 100 "http://x" (some "T") 200
      "52428801" [0] none 52428801
      (rateLimited_false_of _ _ _ _ (by norm_num)) (by decide) (by decide)
      (by decide) (by decide) (by decide),
    C6_size_gate.2 ⟨10, 50⟩ (fun _ => 0) 1 100 "http://x" (some "T") 200
      "52428800" [0]
      (rateLimited_false_of _ _ _ _ (by norm_num)) (by decide) (by decide)
      (by decide) (by decide)⟩

/-- Claim C8: every exception raised by the resolver or the fetcher is caught
at the pipeline boundary, logged at error level with its message, and turned
into the single user-facing error reply; the handler returns normally with
exactly those observable effects. -/
theorem C8_exception_boundary (cfg : Config) (st : RLState) (req : Request)
    (msg : String)
    (hrl : rateLimited cfg st req.userId req.time = false)
    (hurl : beginsWith "http" (pyStrip req.text) = true)
    (hexn : req.resolver = .raises msg ∨
      ((∃ title, req.resolver = .returns true title) ∧ req.fetch = .raises msg)) :
    (handleMessage cfg st req).sends = [.text ("❌ Error: " ++ msg)] ∧
    (handleMessage cfg st req).logs = [.error ("Error: " ++ msg)] := by
  have htry : tryBody cfg req = ⟨[], [], false, some msg⟩ := by
    rcases hexn with h | ⟨⟨title, hres⟩, hfetch⟩
    · simp [tryBody, h]
    · simp [tryBody, hres, hfetch]
  constructor <;> simp [handleMessage, hrl, hurl, htry]

/-- Concrete instance of the C8 theorem: a resolver exception "boom" is
logged and answered with the error reply. -/
theorem C8_exception_boundary_witness :
    (handleMessage ⟨10, 50⟩ (fun _ => 0)
        ⟨1, 100, "http://x", .raises "boom", .raises "f", none⟩).sends =
      [.text ("❌ Error: " ++ "boom")] ∧
    (handleMessage ⟨10, 50⟩ (fun _ => 0)
        ⟨1, 100, "http://x", .raises "boom", .raises "f", none⟩).logs =
      [.error ("Error: " ++ "boom")] :=
  C8_exception_boundary _ _ _ "boom"
    (rateLimited_false_of _ _ _ _ (by norm_num)) (by decide) (Or.inl rfl)

/-- Claim C9: when the fetched response carries no content-length header, or
an empty one, the size pre-check is skipped, the whole body is read into
memory, and the audio send goes out regardless of the body's actual size. -/
theorem C9_missing_content_length (cfg : Config) (st : RLState) (u : UserId)
    (t : Time) (txt : String) (title : Option String) (status : Nat)
    (cl : Option String) (body : List Nat)
    (hrl : rateLimited cfg st u t = false)
    (hurl : beginsWith "http" (pyStrip txt) = true)
    (hst : status < 400)
    (hcl : cl = none ∨ cl = some "") :
    (handleMessage cfg st
        ⟨u, t, txt, .returns true title,
          .response ⟨status, cl, body⟩, none⟩).bodyRead = true ∧
    (handleMessage cfg st
        ⟨u, t, txt, .returns true title,
          .response ⟨status, cl, body⟩, none⟩).sends =
      [.audioAttempt (sanitize_filename (title.getD "audio") ++ ".mp3") true] := by
  have hnot : ¬ (400 ≤ status) := by omega
  have hsz : sizeCheck cfg ⟨status, cl, body⟩ = .pass := by
    rcases hcl with h | h <;> subst h <;> rfl
  constructor <;> simp [handleMessage, hrl, hurl, tryBody, hnot, hsz]

/-- Concrete instance of the C9 theorem: a response with no content-length
header and a 999-byte body is read and sent in full. -/
theorem C9_missing_content_length_witness :
    (handleMessage ⟨10, 50⟩ (fun _ => 0)
        ⟨1, 100, "http://x", .returns true (some "T"),
          .response ⟨200, none, List.replicate 999 7⟩, none⟩).bodyRead = true ∧
    (handleMessage ⟨10, 50⟩ (fun _ => 0)
        ⟨1, 100, "http://x", .returns true (some "T"),
          .response ⟨200, none, List.replicate 999 7⟩, none⟩).sends =
      [.audioAttempt (sanitize_filename "T" ++ ".mp3") true] :=
  C9_missing_content_length _ _ 1 100 "http://x" (some "T") 200 none _
    (rateLimited_false_of _ _ _ _ (by norm_num)) (by decide) (by decide)
    (Or.inl rfl)

/-- Claim C10: if the success audio send itself raises after resolution,
fetch and size check all succeeded, the same per-request handler catches it,
logs it, and additionally sends the user-facing error reply, so the request
produces two outbound send attempts. -/
theorem C10_audio_send_caught (cfg : Config) (st : RLState) (u : UserId)
    (t : Time) (txt : String) (title : Option String) (status : Nat)
    (body : List Nat) (m : String)
    (hrl : rateLimited cfg st u t = false)
    (hurl : beginsWith "http" (pyStrip txt) = true)
    (hst : status < 400) :
    (handleMessage cfg st
        ⟨u, t, txt, .returns true title,
          .response ⟨status, none, body⟩, some m⟩).sends =
      [.audioAttempt (sanitize_filename (title.getD "audio") ++ ".mp3") false,
        .text ("❌ Error: " ++ m)] ∧
    (handleMessage cfg st
        ⟨u, t, txt, .returns true title,
          .response ⟨status, none, body⟩, some m⟩).logs =
      [.error ("Error: " ++ m)] := by
  have hnot : ¬ (400 ≤ status) := by omega
  constructor <;> simp [handleMessage, hrl, hurl, tryBody, hnot, sizeCheck]

/-- Concrete instance of the C10 theorem: a raising audio send is followed by
the error reply, two send attempts in total. -/
theorem C10_audio_send_caught_witness :
    (handleMessage ⟨10, 50⟩ (fun _ => 0)
        ⟨1, 100, "http://x", .returns true (some "T"),
          .response ⟨200, none, [0]⟩, some "Timed out"⟩).sends =
      [.audioAttempt (sanitize_filename "T" ++ ".mp3") false,
        .text ("❌ Error: " ++ "Timed out")] ∧
    (handleMessage ⟨10, 50⟩ (fun _ => 0)
        ⟨1, 100, "http://x", .returns true (some "T"),
          .response ⟨200, none, [0]⟩, some "Timed out"⟩).logs =
      [.error ("Error: " ++ "Timed out")] :=
  C10_audio_send_caught _ _ 1 100 "http://x" (some "T") 200 [0] "Timed out"
    (rateLimited_false_of _ _ _ _ (by norm_num)) (by decide) (by decide)

/-- Effects shape of the `try:` block: on normal completion exactly one
successful send and at most one log record; when it raises, no successful
send and no log record yet. -/
theorem tryBody_effects (cfg : Config) (req : Request) :
    ((tryBody cfg req).exn = none →
      (successfulSends (tryBody cfg req).sends).length = 1 ∧
      (tryBody cfg req).logs.length ≤ 1) ∧
    ((tryBody cfg req).exn ≠ none →
      (successfulSends (tryBody cfg req).sends).length = 0 ∧
      (tryBody cfg req).logs = []) := by
  obtain ⟨u, t, txt, res, ftch, snd⟩ := req
  cases res with
  | raises msg => simp [tryBody, successfulSends]
  | returns usable title =>
    cases usable
    · simp [tryBody, successfulSends, sendOk, List.filter]
    · cases ftch with
      | raises msg => simp [tryBody, successfulSends]
      | response resp =>
        by_cases h4 : 400 ≤ resp.status
        · simp [tryBody, h4, successfulSends]
        · cases hsz : sizeCheck cfg resp with
          | pass =>
            cases snd with
            | none =>
              simp [tryBody, h4, hsz, successfulSends, sendOk, List.filter]
            | some m =>
              simp [tryBody, h4, hsz, successfulSends, sendOk, List.filter]
          | reject =>
            simp [tryBody, h4, hsz, successfulSends, sendOk, List.filter]
          | raises msg => simp [tryBody, h4, hsz, successfulSends]

/-- Claim C7 (amended): every inbound request produces exactly one successful
outbound reply (the audio payload, a rejection message, or an error message)
and at most one log record; a log record appears only on the success path and
on the caught-exception path, so rejection paths produce none. -/
theorem C7_one_reply (cfg : Config) (st : RLState) (req : Request) :
    (successfulSends (handleMessage cfg st req).sends).length = 1 ∧
    (handleMessage cfg st req).logs.length ≤ 1 := by
  cases hrl : rateLimited cfg st req.userId req.time
  · cases hurl : beginsWith "http" (pyStrip req.text)
    · constructor <;>
        simp [handleMessage, hrl, hurl, successfulSends, sendOk, List.filter]
    · have h := tryBody_effects cfg req
      cases hexn : (tryBody cfg req).exn with
      | none =>
        obtain ⟨h1, h2⟩ := h.1 hexn
        constructor <;> simp [handleMessage, hrl, hurl, hexn, h1, h2]
      | some e =>
        obtain ⟨h1, h2⟩ := h.2 (by simp [hexn])
        simp only [successfulSends] at h1
        constructor
        · simp [handleMessage, hrl, hurl, hexn, successfulSends,
            List.filter_append, h1, sendOk]
        · simp [handleMessage, hrl, hurl, hexn, h2]
  · constructor <;> simp [handleMessage, hrl, successfulSends, sendOk, List.filter]

/-- Claim C7 counterexample: a rate-limited request produces its one reply
but zero log records, refuting the "exactly one log record on every path"
half of the claim. -/
theorem C7_counterexample :
    (handleMessage ⟨10, 50⟩ (fun _ => 0)
        ⟨1, 5, "http://a", .raises "e", .raises "f", none⟩).sends.length = 1 ∧
    ¬ ((handleMessage ⟨10, 50⟩ (fun _ => 0)
        ⟨1, 5, "http://a", .raises "e", .raises "f", none⟩).logs.length = 1) := by
  have hrl : rateLimited ⟨10, 50⟩ (fun _ => 0) 1 5 = true :=
    rateLimited_true_of _ _ _ _ (by norm_num)
  constructor <;> simp [handleMessage, hrl]

end KukuBot
